import Mathlib

/-!
Shallow embedding of the pattern-matching utility (`eda_pattern_match.cpp`)
and of the legacy-ID translation table (`pcb_actions.cpp`) of the KiCad
source excerpt, together with proofs of the specification claims.

Strings (`wxString`) are modelled as `List Char`; integer return values of
the matcher API are `Int`.
-/

/-- `INT_MAX` from `<climits>` on the 32-bit-int platforms KiCad targets. -/
def INT_MAX : Int := 2147483647

/-- Modelled from the spec: the not-found sentinel `EDA_PATTERN_NOT_FOUND`
is declared in `eda_pattern_match.h`, which is not part of the excerpt; the
header defines it as `INT_MAX`, consistently with the clamp to `INT_MAX` in
`EDA_PATTERN_MATCH_REGEX::Find` and with the minimum-tracking loop of
`EDA_COMBINED_MATCHER::Find`, which starts from this sentinel and replaces
it by any smaller match position. -/
def EDA_PATTERN_NOT_FOUND : Int := INT_MAX

/-- `wxNOT_FOUND` of wxWidgets. -/
def wxNOT_FOUND : Int := -1

/-- Behaviour of `wxString::Find( const wxString& )` (external library):
index of the first occurrence of `needle` in `hay`, if any. -/
def wxFindAux (needle : List Char) : List Char → Option Nat
  | [] => if needle.isPrefixOf ([] : List Char) then some 0 else none
  | c :: t =>
      if needle.isPrefixOf (c :: t) then some 0
      else (wxFindAux needle t).map (fun k => k + 1)

/-- `wxString::Find` proper: the first-occurrence index, or `wxNOT_FOUND`. -/
def wxStringFind (hay needle : List Char) : Int :=
  match wxFindAux needle hay with
  | some k => (k : Int)
  | none => wxNOT_FOUND

/-- A compiled `wxRegEx` (external library) is abstracted as a matching
function: given a candidate it returns the start offset of the overall
match (`GetMatch` with index 0), or `none` when `Matches` fails.  An
invalid (uncompiled) regex is `none`. -/
def CompiledRegex : Type := List Char → Option Nat

/-- The `wxRegEx::Compile( pattern, wxRE_ADVANCED )` step, abstracted: a
compiler either produces a compiled regex or fails. -/
def RegexCompiler : Type := List Char → Option CompiledRegex

/-- State of `EDA_PATTERN_MATCH_SUBSTR`. -/
structure EDA_PATTERN_MATCH_SUBSTR where
  m_pattern : List Char

/-- State of `EDA_PATTERN_MATCH_REGEX`: the pattern string and the
`wxRegEx` member (`none` when the member holds no valid compiled
expression). -/
structure EDA_PATTERN_MATCH_REGEX where
  m_pattern : List Char
  m_regex : Option CompiledRegex

/-- State of `EDA_PATTERN_MATCH_WILDCARD`, which inherits from the regex
matcher and additionally stores the original wildcard string. -/
structure EDA_PATTERN_MATCH_WILDCARD extends EDA_PATTERN_MATCH_REGEX where
  m_wildcard_pattern : List Char

/-- `EDA_PATTERN_MATCH_SUBSTR::SetPattern`: store the pattern, return true. -/
def EDA_PATTERN_MATCH_SUBSTR.SetPattern (_ : EDA_PATTERN_MATCH_SUBSTR)
    (aPattern : List Char) : Bool × EDA_PATTERN_MATCH_SUBSTR :=
  (true, { m_pattern := aPattern })

/-- `EDA_PATTERN_MATCH_SUBSTR::GetPattern`. -/
def EDA_PATTERN_MATCH_SUBSTR.GetPattern (m : EDA_PATTERN_MATCH_SUBSTR) : List Char :=
  m.m_pattern

/-- `EDA_PATTERN_MATCH_SUBSTR::Find`: position of the stored pattern in the
candidate, or the not-found sentinel. -/
def EDA_PATTERN_MATCH_SUBSTR.Find (m : EDA_PATTERN_MATCH_SUBSTR)
    (aCandidate : List Char) : Int :=
  let loc := wxStringFind aCandidate m.m_pattern
  if loc = wxNOT_FOUND then EDA_PATTERN_NOT_FOUND else loc

/-- `EDA_PATTERN_MATCH_REGEX::SetPattern`: store the pattern and compile it
with `wxRE_ADVANCED`; return whether compilation succeeded. -/
def EDA_PATTERN_MATCH_REGEX.SetPattern (compile : RegexCompiler)
    (_ : EDA_PATTERN_MATCH_REGEX) (aPattern : List Char) :
    Bool × EDA_PATTERN_MATCH_REGEX :=
  ((compile aPattern).isSome, { m_pattern := aPattern, m_regex := compile aPattern })

/-- `EDA_PATTERN_MATCH_REGEX::GetPattern`. -/
def EDA_PATTERN_MATCH_REGEX.GetPattern (m : EDA_PATTERN_MATCH_REGEX) : List Char :=
  m.m_pattern

/-- `EDA_PATTERN_MATCH_REGEX::Find`: if the regex member is valid, return
the match start clamped to `INT_MAX`, or the sentinel when it does not
match; otherwise fall back to a plain substring search for `m_pattern`. -/
def EDA_PATTERN_MATCH_REGEX.Find (m : EDA_PATTERN_MATCH_REGEX)
    (aCandidate : List Char) : Int :=
  match m.m_regex with
  | some mf =>
      match mf aCandidate with
      | some start => if (start : Int) > INT_MAX then INT_MAX else (start : Int)
      | none => EDA_PATTERN_NOT_FOUND
  | none =>
      let loc := wxStringFind aCandidate m.m_pattern
      if loc = wxNOT_FOUND then EDA_PATTERN_NOT_FOUND else loc

/-- The character set `".*+?^${}()|[]/\\"` that
`EDA_PATTERN_MATCH_WILDCARD::SetPattern` escapes with a backslash. -/
def wildcard_to_replace : List Char :=
  ['.', '*', '+', '?', '^', '$', '\x7b', '\x7d', '(', ')', '|', '[', ']', '/', '\\']

/-- The translation loop of `EDA_PATTERN_MATCH_WILDCARD::SetPattern`,
with the `regex` string built so far as the accumulator (`regex += ...`). -/
def wildcardRegexLoop (regex : List Char) : List Char → List Char
  | [] => regex
  | c :: rest =>
      if c = '?' then wildcardRegexLoop (regex ++ ['.']) rest
      else if c = '*' then wildcardRegexLoop (regex ++ ['.', '*']) rest
      else if wildcard_to_replace.contains c then
        wildcardRegexLoop (regex ++ ['\\', c]) rest
      else wildcardRegexLoop (regex ++ [c]) rest

/-- `EDA_PATTERN_MATCH_WILDCARD::SetPattern`: remember the wildcard string,
translate it to a regular expression and hand the result to the inherited
`EDA_PATTERN_MATCH_REGEX::SetPattern`. -/
def EDA_PATTERN_MATCH_WILDCARD.SetPattern (compile : RegexCompiler)
    (m : EDA_PATTERN_MATCH_WILDCARD) (aPattern : List Char) :
    Bool × EDA_PATTERN_MATCH_WILDCARD :=
  let regex := wildcardRegexLoop [] aPattern
  let r := EDA_PATTERN_MATCH_REGEX.SetPattern compile m.toEDA_PATTERN_MATCH_REGEX regex
  (r.1, { toEDA_PATTERN_MATCH_REGEX := r.2, m_wildcard_pattern := aPattern })

/-- `EDA_PATTERN_MATCH_WILDCARD::GetPattern`: the original wildcard string. -/
def EDA_PATTERN_MATCH_WILDCARD.GetPattern (m : EDA_PATTERN_MATCH_WILDCARD) : List Char :=
  m.m_wildcard_pattern

/-- `EDA_PATTERN_MATCH_WILDCARD::Find` just calls the inherited regex
`Find`. -/
def EDA_PATTERN_MATCH_WILDCARD.Find (m : EDA_PATTERN_MATCH_WILDCARD)
    (aCandidate : List Char) : Int :=
  EDA_PATTERN_MATCH_REGEX.Find m.toEDA_PATTERN_MATCH_REGEX aCandidate

/-- The polymorphic `EDA_PATTERN_MATCH` interface: one of the three
concrete matcher variants. -/
inductive EDA_PATTERN_MATCH where
  | substr (m : EDA_PATTERN_MATCH_SUBSTR)
  | regex (m : EDA_PATTERN_MATCH_REGEX)
  | wildcard (m : EDA_PATTERN_MATCH_WILDCARD)

/-- Virtual dispatch of `SetPattern`. -/
def EDA_PATTERN_MATCH.SetPattern (compile : RegexCompiler)
    (m : EDA_PATTERN_MATCH) (aPattern : List Char) : Bool × EDA_PATTERN_MATCH :=
  match m with
  | .substr s =>
      let r := s.SetPattern aPattern
      (r.1, .substr r.2)
  | .regex s =>
      let r := EDA_PATTERN_MATCH_REGEX.SetPattern compile s aPattern
      (r.1, .regex r.2)
  | .wildcard s =>
      let r := EDA_PATTERN_MATCH_WILDCARD.SetPattern compile s aPattern
      (r.1, .wildcard r.2)

/-- Virtual dispatch of `Find`. -/
def EDA_PATTERN_MATCH.Find (m : EDA_PATTERN_MATCH) (aCandidate : List Char) : Int :=
  match m with
  | .substr s => s.Find aCandidate
  | .regex s => s.Find aCandidate
  | .wildcard s => s.Find aCandidate

/-- Virtual dispatch of `GetPattern`. -/
def EDA_PATTERN_MATCH.GetPattern (m : EDA_PATTERN_MATCH) : List Char :=
  match m with
  | .substr s => s.GetPattern
  | .regex s => s.GetPattern
  | .wildcard s => s.GetPattern

/-- State of `EDA_COMBINED_MATCHER`. -/
structure EDA_COMBINED_MATCHER where
  m_pattern : List Char
  m_matchers : List EDA_PATTERN_MATCH

/-- `EDA_COMBINED_MATCHER::AddMatcher`: call `SetPattern` on the given
matcher and push it onto `m_matchers` only when that returned true. -/
def EDA_COMBINED_MATCHER.AddMatcher (compile : RegexCompiler)
    (c : EDA_COMBINED_MATCHER) (aPattern : List Char)
    (aMatcher : EDA_PATTERN_MATCH) : EDA_COMBINED_MATCHER :=
  let r := aMatcher.SetPattern compile aPattern
  if r.1 then { c with m_matchers := c.m_matchers ++ [r.2] } else c

/-- A freshly default-constructed regex matcher: no valid compiled regex. -/
def freshRegexMatcher : EDA_PATTERN_MATCH :=
  .regex { m_pattern := [], m_regex := none }

/-- A freshly default-constructed wildcard matcher. -/
def freshWildcardMatcher : EDA_PATTERN_MATCH :=
  .wildcard { m_pattern := [], m_regex := none, m_wildcard_pattern := [] }

/-- A freshly default-constructed substring matcher. -/
def freshSubstrMatcher : EDA_PATTERN_MATCH :=
  .substr { m_pattern := [] }

/-- The `EDA_COMBINED_MATCHER` constructor: store the pattern and attempt
to register, in order, a regex, a wildcard and a substring matcher. -/
def EDA_COMBINED_MATCHER.construct (compile : RegexCompiler)
    (aPattern : List Char) : EDA_COMBINED_MATCHER :=
  let s0 : EDA_COMBINED_MATCHER := { m_pattern := aPattern, m_matchers := [] }
  let s1 := s0.AddMatcher compile aPattern freshRegexMatcher
  let s2 := s1.AddMatcher compile aPattern freshWildcardMatcher
  s2.AddMatcher compile aPattern freshSubstrMatcher

/-- Result of `EDA_COMBINED_MATCHER::Find`: the boolean return value and
the two out-parameters. -/
structure CombinedFindResult where
  ret : Bool
  aMatchersTriggered : Int
  aPosition : Int
deriving DecidableEq, Repr

/-- One iteration of the loop body of `EDA_COMBINED_MATCHER::Find`, on the
accumulator `(aMatchersTriggered, aPosition)` and the value `local_find`
returned by the current matcher. -/
def combinedStep (acc : Int × Int) (local_find : Int) : Int × Int :=
  if local_find ≠ EDA_PATTERN_NOT_FOUND then
    ( acc.1 + 1
    , if local_find < acc.2 ∨ acc.2 = EDA_PATTERN_NOT_FOUND then local_find else acc.2 )
  else acc

/-- `EDA_COMBINED_MATCHER::Find`: initialise the out-parameters, run every
registered matcher in order, and return whether a position was found. -/
def EDA_COMBINED_MATCHER.Find (c : EDA_COMBINED_MATCHER) (aTerm : List Char) :
    CombinedFindResult :=
  let r := c.m_matchers.foldl
    (fun acc matcher => combinedStep acc (matcher.Find aTerm))
    (0, EDA_PATTERN_NOT_FOUND)
  { ret := r.2 != EDA_PATTERN_NOT_FOUND
  , aMatchersTriggered := r.1
  , aPosition := r.2 }

/-- `EDA_COMBINED_MATCHER::GetPattern`. -/
def EDA_COMBINED_MATCHER.GetPattern (c : EDA_COMBINED_MATCHER) : List Char :=
  c.m_pattern

/-! ### Specification-side characterisations used by the claims -/

/-- Specification reading of the combined position: the minimum of the
positions reported by the individual matchers, the matchers that report
the sentinel being excluded, and the sentinel itself when none matched. -/
def combinedPosSpec (vals : List Int) : Int :=
  match vals.filter (fun v => v != EDA_PATTERN_NOT_FOUND) with
  | [] => EDA_PATTERN_NOT_FOUND
  | x :: xs => xs.foldl min x

/-- Specification reading of the wildcard-to-regex translation of a single
character. -/
def wildcardCharRegex (c : Char) : List Char :=
  if c = '?' then ['.']
  else if c = '*' then ['.', '*']
  else if wildcard_to_replace.contains c then ['\\', c]
  else [c]

/-- Specification reading of the whole wildcard-to-regex translation:
translate every character independently and concatenate. -/
def wildcardTranslation (p : List Char) : List Char :=
  (p.map wildcardCharRegex).flatten

/-! ### `pcb_actions.cpp`: TOOL_ACTION table and `TranslateLegacyId` -/

/-- Modelled from the spec: `TOOL_ACTION` (declared in the tool-framework
headers, which are not part of the excerpt) is declarative metadata bound
to a unique dotted name; only the name is relevant to the event produced
by `MakeEvent`, so the model keeps the name. -/
structure TOOL_ACTION where
  m_name : String
deriving DecidableEq, Repr

/-- Modelled from the spec: a `TOOL_EVENT` as produced by
`TOOL_ACTION::MakeEvent` (header not in the excerpt), carrying the
action's command name. -/
structure TOOL_EVENT where
  m_commandStr : String
deriving DecidableEq, Repr

/-- `TOOL_ACTION::MakeEvent`: the event of this action. -/
def TOOL_ACTION.MakeEvent (a : TOOL_ACTION) : TOOL_EVENT :=
  { m_commandStr := a.m_name }

namespace PCB_ACTIONS

def find : TOOL_ACTION := { m_name := "pcbnew.InteractiveSelection.Find" }

def findMove : TOOL_ACTION := { m_name := "pcbnew.InteractiveSelection.FindMove" }

def drawLine : TOOL_ACTION := { m_name := "pcbnew.InteractiveDrawing.line" }

def drawCircle : TOOL_ACTION := { m_name := "pcbnew.InteractiveDrawing.circle" }

def drawArc : TOOL_ACTION := { m_name := "pcbnew.InteractiveDrawing.arc" }

def placeText : TOOL_ACTION := { m_name := "pcbnew.InteractiveDrawing.text" }

def drawDimension : TOOL_ACTION := { m_name := "pcbnew.InteractiveDrawing.dimension" }

def drawZone : TOOL_ACTION := { m_name := "pcbnew.InteractiveDrawing.zone" }

def drawKeepout : TOOL_ACTION := { m_name := "pcbnew.InteractiveDrawing.keepout" }

def placeDXF : TOOL_ACTION := { m_name := "pcbnew.InteractiveDrawing.placeDXF" }

def setAnchor : TOOL_ACTION := { m_name := "pcbnew.InteractiveDrawing.setAnchor" }

def zoomInCenter : TOOL_ACTION := { m_name := "common.Control.zoomInCenter" }

def zoomOutCenter : TOOL_ACTION := { m_name := "common.Control.zoomOutCenter" }

def zoomFitScreen : TOOL_ACTION := { m_name := "common.Control.zoomFitScreen" }

def trackDisplayMode : TOOL_ACTION := { m_name := "pcbnew.Control.trackDisplayMode" }

def padDisplayMode : TOOL_ACTION := { m_name := "pcbnew.Control.padDisplayMode" }

def viaDisplayMode : TOOL_ACTION := { m_name := "pcbnew.Control.viaDisplayMode" }

def zoneDisplayEnable : TOOL_ACTION := { m_name := "pcbnew.Control.zoneDisplayEnable" }

def zoneDisplayDisable : TOOL_ACTION := { m_name := "pcbnew.Control.zoneDisplayDisable" }

def zoneDisplayOutlines : TOOL_ACTION := { m_name := "pcbnew.Control.zoneDisplayOutlines" }

def highContrastMode : TOOL_ACTION := { m_name := "pcbnew.Control.highContrastMode" }

def gridSetOrigin : TOOL_ACTION := { m_name := "common.Control.gridSetOrigin" }

def placeTarget : TOOL_ACTION := { m_name := "pcbnew.EditorControl.placeTarget" }

def placeModule : TOOL_ACTION := { m_name := "pcbnew.EditorControl.placeModule" }

def drillOrigin : TOOL_ACTION := { m_name := "pcbnew.EditorControl.drillOrigin" }

def appendBoard : TOOL_ACTION := { m_name := "pcbnew.EditorControl.appendBoard" }

def highlightNetCursor : TOOL_ACTION := { m_name := "pcbnew.EditorControl.highlightNetCursor" }

def placePad : TOOL_ACTION := { m_name := "pcbnew.ModuleEditor.placePad" }

def moduleEdgeOutlines : TOOL_ACTION := { m_name := "pcbnew.ModuleEditor.graphicOutlines" }

def moduleTextOutlines : TOOL_ACTION := { m_name := "pcbnew.ModuleEditor.textOutlines" }

def selectionTool : TOOL_ACTION := { m_name := "pcbnew.Control.selectionTool" }

def zoomTool : TOOL_ACTION := { m_name := "pcbnew.Control.zoomTool" }

def deleteItemCursor : TOOL_ACTION := { m_name := "pcbnew.Control.deleteItemCursor" }

def toBeDone : TOOL_ACTION := { m_name := "pcbnew.Control.toBeDone" }

def routerActivateSingle : TOOL_ACTION := { m_name := "pcbnew.InteractiveRouter.SingleTrack" }

def routerActivateDiffPair : TOOL_ACTION := { m_name := "pcbnew.InteractiveRouter.DiffPair" }

def routerActivateSettingsDialog : TOOL_ACTION := { m_name := "pcbnew.InteractiveRouter.SettingsDialog" }

def routerActivateDpDimensionsDialog : TOOL_ACTION := { m_name := "pcbnew.InteractiveRouter.DpDimensionsDialog" }

def routerActivateTuneSingleTrace : TOOL_ACTION := { m_name := "pcbnew.LengthTuner.TuneSingleTrack" }

def routerActivateTuneDiffPair : TOOL_ACTION := { m_name := "pcbnew.LengthTuner.TuneDiffPair" }

def routerActivateTuneDiffPairSkew : TOOL_ACTION := { m_name := "pcbnew.LengthTuner.TuneDiffPairSkew" }

end PCB_ACTIONS

/-- Modelled from the spec: the numeric legacy window IDs
(`pcbnew_id.h` and wx headers are not part of the excerpt, so the values
are kept abstract as fields of this structure; the translator only
compares against them). -/
structure LEGACY_IDS where
  ID_PCB_MODULE_BUTT : Int
  ID_TRACK_BUTT : Int
  ID_DIFF_PAIR_BUTT : Int
  ID_TUNE_SINGLE_TRACK_LEN_BUTT : Int
  ID_TUNE_DIFF_PAIR_LEN_BUTT : Int
  ID_TUNE_DIFF_PAIR_SKEW_BUTT : Int
  ID_MENU_INTERACTIVE_ROUTER_SETTINGS : Int
  ID_MENU_DIFF_PAIR_DIMENSIONS : Int
  ID_PCB_ZONES_BUTT : Int
  ID_PCB_KEEPOUT_AREA_BUTT : Int
  ID_PCB_ADD_LINE_BUTT : Int
  ID_MODEDIT_LINE_TOOL : Int
  ID_PCB_CIRCLE_BUTT : Int
  ID_MODEDIT_CIRCLE_TOOL : Int
  ID_PCB_ARC_BUTT : Int
  ID_MODEDIT_ARC_TOOL : Int
  ID_PCB_ADD_TEXT_BUTT : Int
  ID_MODEDIT_TEXT_TOOL : Int
  ID_PCB_DIMENSION_BUTT : Int
  ID_PCB_MIRE_BUTT : Int
  ID_MODEDIT_PAD_TOOL : Int
  ID_GEN_IMPORT_DXF_FILE : Int
  ID_MODEDIT_ANCHOR_TOOL : Int
  ID_PCB_PLACE_GRID_COORD_BUTT : Int
  ID_MODEDIT_PLACE_GRID_COORD : Int
  ID_ZOOM_IN : Int
  ID_ZOOM_OUT : Int
  ID_ZOOM_PAGE : Int
  ID_TB_OPTIONS_SHOW_TRACKS_SKETCH : Int
  ID_TB_OPTIONS_SHOW_PADS_SKETCH : Int
  ID_TB_OPTIONS_SHOW_VIAS_SKETCH : Int
  ID_TB_OPTIONS_SHOW_ZONES : Int
  ID_TB_OPTIONS_SHOW_ZONES_DISABLE : Int
  ID_TB_OPTIONS_SHOW_ZONES_OUTLINES_ONLY : Int
  ID_TB_OPTIONS_SHOW_MODULE_EDGE_SKETCH : Int
  ID_TB_OPTIONS_SHOW_MODULE_TEXT_SKETCH : Int
  ID_TB_OPTIONS_SHOW_HIGH_CONTRAST_MODE : Int
  ID_FIND_ITEMS : Int
  ID_POPUP_PCB_GET_AND_MOVE_MODULE_REQUEST : Int
  ID_NO_TOOL_SELECTED : Int
  ID_ZOOM_SELECTION : Int
  ID_PCB_DELETE_ITEM_BUTT : Int
  ID_MODEDIT_DELETE_TOOL : Int
  ID_PCB_PLACE_OFFSET_COORD_BUTT : Int
  ID_PCB_HIGHLIGHT_BUTT : Int
  ID_APPEND_FILE : Int
  ID_PCB_SHOW_1_RATSNEST_BUTT : Int

/-- `PCB_ACTIONS::TranslateLegacyId`: the switch over the legacy ID,
case by case in source order; fall-through labels become disjunctions. -/
def PCB_ACTIONS.TranslateLegacyId (ids : LEGACY_IDS) (aId : Int) : Option TOOL_EVENT :=
  if aId = ids.ID_PCB_MODULE_BUTT then some PCB_ACTIONS.placeModule.MakeEvent
  else if aId = ids.ID_TRACK_BUTT then some PCB_ACTIONS.routerActivateSingle.MakeEvent
  else if aId = ids.ID_DIFF_PAIR_BUTT then some PCB_ACTIONS.routerActivateDiffPair.MakeEvent
  else if aId = ids.ID_TUNE_SINGLE_TRACK_LEN_BUTT then some PCB_ACTIONS.routerActivateTuneSingleTrace.MakeEvent
  else if aId = ids.ID_TUNE_DIFF_PAIR_LEN_BUTT then some PCB_ACTIONS.routerActivateTuneDiffPair.MakeEvent
  else if aId = ids.ID_TUNE_DIFF_PAIR_SKEW_BUTT then some PCB_ACTIONS.routerActivateTuneDiffPairSkew.MakeEvent
  else if aId = ids.ID_MENU_INTERACTIVE_ROUTER_SETTINGS then some PCB_ACTIONS.routerActivateSettingsDialog.MakeEvent
  else if aId = ids.ID_MENU_DIFF_PAIR_DIMENSIONS then some PCB_ACTIONS.routerActivateDpDimensionsDialog.MakeEvent
  else if aId = ids.ID_PCB_ZONES_BUTT then some PCB_ACTIONS.drawZone.MakeEvent
  else if aId = ids.ID_PCB_KEEPOUT_AREA_BUTT then some PCB_ACTIONS.drawKeepout.MakeEvent
  else if aId = ids.ID_PCB_ADD_LINE_BUTT ∨ aId = ids.ID_MODEDIT_LINE_TOOL then some PCB_ACTIONS.drawLine.MakeEvent
  else if aId = ids.ID_PCB_CIRCLE_BUTT ∨ aId = ids.ID_MODEDIT_CIRCLE_TOOL then some PCB_ACTIONS.drawCircle.MakeEvent
  else if aId = ids.ID_PCB_ARC_BUTT ∨ aId = ids.ID_MODEDIT_ARC_TOOL then some PCB_ACTIONS.drawArc.MakeEvent
  else if aId = ids.ID_PCB_ADD_TEXT_BUTT ∨ aId = ids.ID_MODEDIT_TEXT_TOOL then some PCB_ACTIONS.placeText.MakeEvent
  else if aId = ids.ID_PCB_DIMENSION_BUTT then some PCB_ACTIONS.drawDimension.MakeEvent
  else if aId = ids.ID_PCB_MIRE_BUTT then some PCB_ACTIONS.placeTarget.MakeEvent
  else if aId = ids.ID_MODEDIT_PAD_TOOL then some PCB_ACTIONS.placePad.MakeEvent
  else if aId = ids.ID_GEN_IMPORT_DXF_FILE then some PCB_ACTIONS.placeDXF.MakeEvent
  else if aId = ids.ID_MODEDIT_ANCHOR_TOOL then some PCB_ACTIONS.setAnchor.MakeEvent
  else if aId = ids.ID_PCB_PLACE_GRID_COORD_BUTT ∨ aId = ids.ID_MODEDIT_PLACE_GRID_COORD then some PCB_ACTIONS.gridSetOrigin.MakeEvent
  else if aId = ids.ID_ZOOM_IN then some PCB_ACTIONS.zoomInCenter.MakeEvent
  else if aId = ids.ID_ZOOM_OUT then some PCB_ACTIONS.zoomOutCenter.MakeEvent
  else if aId = ids.ID_ZOOM_PAGE then some PCB_ACTIONS.zoomFitScreen.MakeEvent
  else if aId = ids.ID_TB_OPTIONS_SHOW_TRACKS_SKETCH then some PCB_ACTIONS.trackDisplayMode.MakeEvent
  else if aId = ids.ID_TB_OPTIONS_SHOW_PADS_SKETCH then some PCB_ACTIONS.padDisplayMode.MakeEvent
  else if aId = ids.ID_TB_OPTIONS_SHOW_VIAS_SKETCH then some PCB_ACTIONS.viaDisplayMode.MakeEvent
  else if aId = ids.ID_TB_OPTIONS_SHOW_ZONES then some PCB_ACTIONS.zoneDisplayEnable.MakeEvent
  else if aId = ids.ID_TB_OPTIONS_SHOW_ZONES_DISABLE then some PCB_ACTIONS.zoneDisplayDisable.MakeEvent
  else if aId = ids.ID_TB_OPTIONS_SHOW_ZONES_OUTLINES_ONLY then some PCB_ACTIONS.zoneDisplayOutlines.MakeEvent
  else if aId = ids.ID_TB_OPTIONS_SHOW_MODULE_EDGE_SKETCH then some PCB_ACTIONS.moduleEdgeOutlines.MakeEvent
  else if aId = ids.ID_TB_OPTIONS_SHOW_MODULE_TEXT_SKETCH then some PCB_ACTIONS.moduleTextOutlines.MakeEvent
  else if aId = ids.ID_TB_OPTIONS_SHOW_HIGH_CONTRAST_MODE then some PCB_ACTIONS.highContrastMode.MakeEvent
  else if aId = ids.ID_FIND_ITEMS then some PCB_ACTIONS.find.MakeEvent
  else if aId = ids.ID_POPUP_PCB_GET_AND_MOVE_MODULE_REQUEST then some PCB_ACTIONS.findMove.MakeEvent
  else if aId = ids.ID_NO_TOOL_SELECTED then some PCB_ACTIONS.selectionTool.MakeEvent
  else if aId = ids.ID_ZOOM_SELECTION then some PCB_ACTIONS.zoomTool.MakeEvent
  else if aId = ids.ID_PCB_DELETE_ITEM_BUTT ∨ aId = ids.ID_MODEDIT_DELETE_TOOL then some PCB_ACTIONS.deleteItemCursor.MakeEvent
  else if aId = ids.ID_PCB_PLACE_OFFSET_COORD_BUTT then some PCB_ACTIONS.drillOrigin.MakeEvent
  else if aId = ids.ID_PCB_HIGHLIGHT_BUTT then some PCB_ACTIONS.highlightNetCursor.MakeEvent
  else if aId = ids.ID_APPEND_FILE then some PCB_ACTIONS.appendBoard.MakeEvent
  else if aId = ids.ID_PCB_SHOW_1_RATSNEST_BUTT then some PCB_ACTIONS.toBeDone.MakeEvent
  else none

/-- The flat association table the spec reads the switch as: each listed
legacy ID paired with the event of its fixed `TOOL_ACTION`, in the order
of the switch labels. -/
def legacyIdTable (ids : LEGACY_IDS) : List (Int × TOOL_EVENT) :=
  [ (ids.ID_PCB_MODULE_BUTT, PCB_ACTIONS.placeModule.MakeEvent)
  , (ids.ID_TRACK_BUTT, PCB_ACTIONS.routerActivateSingle.MakeEvent)
  , (ids.ID_DIFF_PAIR_BUTT, PCB_ACTIONS.routerActivateDiffPair.MakeEvent)
  , (ids.ID_TUNE_SINGLE_TRACK_LEN_BUTT, PCB_ACTIONS.routerActivateTuneSingleTrace.MakeEvent)
  , (ids.ID_TUNE_DIFF_PAIR_LEN_BUTT, PCB_ACTIONS.routerActivateTuneDiffPair.MakeEvent)
  , (ids.ID_TUNE_DIFF_PAIR_SKEW_BUTT, PCB_ACTIONS.routerActivateTuneDiffPairSkew.MakeEvent)
  , (ids.ID_MENU_INTERACTIVE_ROUTER_SETTINGS, PCB_ACTIONS.routerActivateSettingsDialog.MakeEvent)
  , (ids.ID_MENU_DIFF_PAIR_DIMENSIONS, PCB_ACTIONS.routerActivateDpDimensionsDialog.MakeEvent)
  , (ids.ID_PCB_ZONES_BUTT, PCB_ACTIONS.drawZone.MakeEvent)
  , (ids.ID_PCB_KEEPOUT_AREA_BUTT, PCB_ACTIONS.drawKeepout.MakeEvent)
  , (ids.ID_PCB_ADD_LINE_BUTT, PCB_ACTIONS.drawLine.MakeEvent)
  , (ids.ID_MODEDIT_LINE_TOOL, PCB_ACTIONS.drawLine.MakeEvent)
  , (ids.ID_PCB_CIRCLE_BUTT, PCB_ACTIONS.drawCircle.MakeEvent)
  , (ids.ID_MODEDIT_CIRCLE_TOOL, PCB_ACTIONS.drawCircle.MakeEvent)
  , (ids.ID_PCB_ARC_BUTT, PCB_ACTIONS.drawArc.MakeEvent)
  , (ids.ID_MODEDIT_ARC_TOOL, PCB_ACTIONS.drawArc.MakeEvent)
  , (ids.ID_PCB_ADD_TEXT_BUTT, PCB_ACTIONS.placeText.MakeEvent)
  , (ids.ID_MODEDIT_TEXT_TOOL, PCB_ACTIONS.placeText.MakeEvent)
  , (ids.ID_PCB_DIMENSION_BUTT, PCB_ACTIONS.drawDimension.MakeEvent)
  , (ids.ID_PCB_MIRE_BUTT, PCB_ACTIONS.placeTarget.MakeEvent)
  , (ids.ID_MODEDIT_PAD_TOOL, PCB_ACTIONS.placePad.MakeEvent)
  , (ids.ID_GEN_IMPORT_DXF_FILE, PCB_ACTIONS.placeDXF.MakeEvent)
  , (ids.ID_MODEDIT_ANCHOR_TOOL, PCB_ACTIONS.setAnchor.MakeEvent)
  , (ids.ID_PCB_PLACE_GRID_COORD_BUTT, PCB_ACTIONS.gridSetOrigin.MakeEvent)
  , (ids.ID_MODEDIT_PLACE_GRID_COORD, PCB_ACTIONS.gridSetOrigin.MakeEvent)
  , (ids.ID_ZOOM_IN, PCB_ACTIONS.zoomInCenter.MakeEvent)
  , (ids.ID_ZOOM_OUT, PCB_ACTIONS.zoomOutCenter.MakeEvent)
  , (ids.ID_ZOOM_PAGE, PCB_ACTIONS.zoomFitScreen.MakeEvent)
  , (ids.ID_TB_OPTIONS_SHOW_TRACKS_SKETCH, PCB_ACTIONS.trackDisplayMode.MakeEvent)
  , (ids.ID_TB_OPTIONS_SHOW_PADS_SKETCH, PCB_ACTIONS.padDisplayMode.MakeEvent)
  , (ids.ID_TB_OPTIONS_SHOW_VIAS_SKETCH, PCB_ACTIONS.viaDisplayMode.MakeEvent)
  , (ids.ID_TB_OPTIONS_SHOW_ZONES, PCB_ACTIONS.zoneDisplayEnable.MakeEvent)
  , (ids.ID_TB_OPTIONS_SHOW_ZONES_DISABLE, PCB_ACTIONS.zoneDisplayDisable.MakeEvent)
  , (ids.ID_TB_OPTIONS_SHOW_ZONES_OUTLINES_ONLY, PCB_ACTIONS.zoneDisplayOutlines.MakeEvent)
  , (ids.ID_TB_OPTIONS_SHOW_MODULE_EDGE_SKETCH, PCB_ACTIONS.moduleEdgeOutlines.MakeEvent)
  , (ids.ID_TB_OPTIONS_SHOW_MODULE_TEXT_SKETCH, PCB_ACTIONS.moduleTextOutlines.MakeEvent)
  , (ids.ID_TB_OPTIONS_SHOW_HIGH_CONTRAST_MODE, PCB_ACTIONS.highContrastMode.MakeEvent)
  , (ids.ID_FIND_ITEMS, PCB_ACTIONS.find.MakeEvent)
  , (ids.ID_POPUP_PCB_GET_AND_MOVE_MODULE_REQUEST, PCB_ACTIONS.findMove.MakeEvent)
  , (ids.ID_NO_TOOL_SELECTED, PCB_ACTIONS.selectionTool.MakeEvent)
  , (ids.ID_ZOOM_SELECTION, PCB_ACTIONS.zoomTool.MakeEvent)
  , (ids.ID_PCB_DELETE_ITEM_BUTT, PCB_ACTIONS.deleteItemCursor.MakeEvent)
  , (ids.ID_MODEDIT_DELETE_TOOL, PCB_ACTIONS.deleteItemCursor.MakeEvent)
  , (ids.ID_PCB_PLACE_OFFSET_COORD_BUTT, PCB_ACTIONS.drillOrigin.MakeEvent)
  , (ids.ID_PCB_HIGHLIGHT_BUTT, PCB_ACTIONS.highlightNetCursor.MakeEvent)
  , (ids.ID_APPEND_FILE, PCB_ACTIONS.appendBoard.MakeEvent)
  , (ids.ID_PCB_SHOW_1_RATSNEST_BUTT, PCB_ACTIONS.toBeDone.MakeEvent) ]

/-- A regex compiler on which every pattern fails to compile (used to
exercise the failure paths of the matcher at concrete inputs). -/
def compileNone : RegexCompiler := fun _ => none

/-- A regex compiler on which every pattern compiles to a regex matching
at offset 0 (used to exercise the success paths at concrete inputs). -/
def compileAt0 : RegexCompiler := fun _ => some (fun _ => some 0)

/-- A concrete, pairwise-distinct assignment of the legacy IDs. -/
def sampleIds : LEGACY_IDS :=
  ⟨1, 2, 3, 4, 5, 6, 7, 8, 9, 10, 11, 12, 13, 14, 15, 16, 17, 18, 19, 20,
   21, 22, 23, 24, 25, 26, 27, 28, 29, 30, 31, 32, 33, 34, 35, 36, 37, 38,
   39, 40, 41, 42, 43, 44, 45, 46, 47⟩

/-! ### Helper lemmas -/

theorem combinedLoop_triggered (vals : List Int) (t p : Int) :
    (vals.foldl combinedStep (t, p)).1
      = t + ((vals.filter (fun v => v != EDA_PATTERN_NOT_FOUND)).length : Int) := by
  induction vals generalizing t p with
  | nil => simp
  | cons v vs ih =>
      by_cases hv : v = EDA_PATTERN_NOT_FOUND
      · simp [List.foldl, combinedStep, hv, ih]
      · simp only [List.foldl, combinedStep, hv, ne_eq, not_false_eq_true, if_true,
          List.filter_cons, bne_iff_ne, decide_eq_true_eq]
        rw [ih]
        simp [hv]
        omega

theorem foldl_min_ne_sentinel (l : List Int) (p : Int)
    (hp : p ≠ EDA_PATTERN_NOT_FOUND) (hl : ∀ v ∈ l, v ≠ EDA_PATTERN_NOT_FOUND) :
    l.foldl min p ≠ EDA_PATTERN_NOT_FOUND := by
  induction l generalizing p with
  | nil => simpa using hp
  | cons x xs ih =>
      have hx : x ≠ EDA_PATTERN_NOT_FOUND := hl x (by simp)
      have hmin : min p x ≠ EDA_PATTERN_NOT_FOUND := by
        rcases min_choice p x with h | h <;> rw [h] <;> assumption
      exact ih (min p x) hmin (fun v hv => hl v (by simp [hv]))

theorem combinedLoop_pos_of_ne (vals : List Int) (t p : Int)
    (hp : p ≠ EDA_PATTERN_NOT_FOUND) :
    (vals.foldl combinedStep (t, p)).2
      = (vals.filter (fun v => v != EDA_PATTERN_NOT_FOUND)).foldl min p := by
  induction vals generalizing t p with
  | nil => simp
  | cons v vs ih =>
      by_cases hv : v = EDA_PATTERN_NOT_FOUND
      · simp [List.foldl, combinedStep, hv, ih t p hp]
      · have hmin : min p v ≠ EDA_PATTERN_NOT_FOUND := by
          rcases min_choice p v with h | h <;> rw [h] <;> assumption
        have hcond : (if v < p ∨ p = EDA_PATTERN_NOT_FOUND then v else p) = min p v := by
          simp only [hp, or_false]
          rcases lt_or_le v p with h | h
          · simp [h, min_eq_right (le_of_lt h)]
          · simp [not_lt.mpr h, min_eq_left h]
        have hstep : combinedStep (t, p) v = (t + 1, min p v) := by
          simp only [combinedStep, hv, ne_eq, not_false_eq_true, if_true, hcond]
        rw [List.foldl_cons, hstep, ih (t + 1) (min p v) hmin]
        simp [List.filter_cons, hv, List.foldl_cons]

theorem combinedLoop_pos (vals : List Int) (t : Int) :
    (vals.foldl combinedStep (t, EDA_PATTERN_NOT_FOUND)).2 = combinedPosSpec vals := by
  induction vals generalizing t with
  | nil => simp [combinedPosSpec]
  | cons v vs ih =>
      by_cases hv : v = EDA_PATTERN_NOT_FOUND
      · have hstep : combinedStep (t, EDA_PATTERN_NOT_FOUND) v
            = (t, EDA_PATTERN_NOT_FOUND) := by
          simp [combinedStep, hv]
        rw [List.foldl_cons, hstep, ih t]
        simp [combinedPosSpec, List.filter_cons, hv]
      · have hstep : combinedStep (t, EDA_PATTERN_NOT_FOUND) v = (t + 1, v) := by
          simp [combinedStep, hv]
        rw [List.foldl_cons, hstep, combinedLoop_pos_of_ne vs (t + 1) v hv]
        simp [combinedPosSpec, List.filter_cons, hv]

theorem foldl_min_mem (xs : List Int) (x : Int) :
    xs.foldl min x = x ∨ xs.foldl min x ∈ xs := by
  induction xs generalizing x with
  | nil => simp
  | cons y ys ih =>
      rcases ih (min x y) with h | h
      · rcases min_choice x y with hm | hm
        · left; rw [List.foldl, h, hm]
        · right; rw [List.foldl, h, hm]; simp
      · right; simp [List.foldl, h]

theorem combinedPosSpec_ne_iff (vals : List Int) :
    combinedPosSpec vals ≠ EDA_PATTERN_NOT_FOUND
      ↔ ∃ v ∈ vals, v ≠ EDA_PATTERN_NOT_FOUND := by
  constructor
  · intro h
    unfold combinedPosSpec at h
    rcases hf : vals.filter (fun v => v != EDA_PATTERN_NOT_FOUND) with _ | ⟨x, xs⟩
    · rw [hf] at h; exact absurd rfl h
    · have hx : x ∈ vals.filter (fun v => v != EDA_PATTERN_NOT_FOUND) := by
        rw [hf]; simp
      have := List.mem_filter.mp hx
      exact ⟨x, this.1, by simpa using this.2⟩
  · rintro ⟨v, hv, hvne⟩
    have hvf : v ∈ vals.filter (fun w => w != EDA_PATTERN_NOT_FOUND) :=
      List.mem_filter.mpr ⟨hv, by simpa using hvne⟩
    unfold combinedPosSpec
    rcases hf : vals.filter (fun w => w != EDA_PATTERN_NOT_FOUND) with _ | ⟨x, xs⟩
    · rw [hf] at hvf; simp at hvf
    · have hall : ∀ w ∈ x :: xs, w ≠ EDA_PATTERN_NOT_FOUND := by
        intro w hw
        have : w ∈ vals.filter (fun w => w != EDA_PATTERN_NOT_FOUND) := by
          rw [hf]; exact hw
        simpa using (List.mem_filter.mp this).2
      exact foldl_min_ne_sentinel xs x (hall x (by simp))
        (fun w hw => hall w (by simp [hw]))

/-- Characterisation of `EDA_COMBINED_MATCHER::Find` in terms of the list
of values returned by the registered matchers. -/
theorem combined_Find_characterisation (c : EDA_COMBINED_MATCHER) (aTerm : List Char) :
    (c.Find aTerm).aPosition
        = combinedPosSpec (c.m_matchers.map (fun m => m.Find aTerm))
      ∧ (c.Find aTerm).aMatchersTriggered
        = (((c.m_matchers.map (fun m => m.Find aTerm)).filter
            (fun v => v != EDA_PATTERN_NOT_FOUND)).length : Int)
      ∧ ((c.Find aTerm).ret = true
          ↔ ∃ m ∈ c.m_matchers, m.Find aTerm ≠ EDA_PATTERN_NOT_FOUND) := by
  have hfold :
      c.m_matchers.foldl (fun acc matcher => combinedStep acc (matcher.Find aTerm))
          (0, EDA_PATTERN_NOT_FOUND)
        = (c.m_matchers.map (fun m => m.Find aTerm)).foldl combinedStep
          (0, EDA_PATTERN_NOT_FOUND) := by
    rw [List.foldl_map]
  have hpos : (c.Find aTerm).aPosition
      = combinedPosSpec (c.m_matchers.map (fun m => m.Find aTerm)) := by
    show (c.m_matchers.foldl
        (fun acc matcher => combinedStep acc (matcher.Find aTerm))
        (0, EDA_PATTERN_NOT_FOUND)).2 = _
    rw [hfold, combinedLoop_pos]
  refine ⟨hpos, ?_, ?_⟩
  · show (c.m_matchers.foldl
        (fun acc matcher => combinedStep acc (matcher.Find aTerm))
        (0, EDA_PATTERN_NOT_FOUND)).1 = _
    rw [hfold, combinedLoop_triggered]
    ring
  · show ((c.m_matchers.foldl
        (fun acc matcher => combinedStep acc (matcher.Find aTerm))
        (0, EDA_PATTERN_NOT_FOUND)).2 != EDA_PATTERN_NOT_FOUND) = true ↔ _
    rw [hfold, combinedLoop_pos, bne_iff_ne, combinedPosSpec_ne_iff]
    constructor
    · rintro ⟨v, hv, hvne⟩
      rcases List.mem_map.mp hv with ⟨m, hm, rfl⟩
      exact ⟨m, hm, hvne⟩
    · rintro ⟨m, hm, hmne⟩
      exact ⟨m.Find aTerm, List.mem_map.mpr ⟨m, hm, rfl⟩, hmne⟩

theorem wildcardRegexLoop_eq (p : List Char) :
    ∀ acc : List Char, wildcardRegexLoop acc p = acc ++ wildcardTranslation p := by
  induction p with
  | nil => intro acc; simp [wildcardRegexLoop, wildcardTranslation]
  | cons c rest ih =>
      intro acc
      by_cases h1 : c = '?'
      · rw [wildcardRegexLoop, if_pos h1, ih]
        simp [wildcardTranslation, wildcardCharRegex, h1]
      · by_cases h2 : c = '*'
        · rw [wildcardRegexLoop, if_neg h1, if_pos h2, ih]
          simp [wildcardTranslation, wildcardCharRegex, h1, h2]
        · by_cases h3 : wildcard_to_replace.contains c
          · have hmem : c ∈ wildcard_to_replace := by simpa using h3
            rw [wildcardRegexLoop, if_neg h1, if_neg h2, if_pos h3, ih]
            simp [wildcardTranslation, wildcardCharRegex, h1, h2, hmem]
          · have hmem : c ∉ wildcard_to_replace := by simpa using h3
            rw [wildcardRegexLoop, if_neg h1, if_neg h2, if_neg h3, ih]
            simp [wildcardTranslation, wildcardCharRegex, h1, h2, hmem]

theorem wxFindAux_of_isPrefixOf (needle hay : List Char)
    (h : needle.isPrefixOf hay = true) : wxFindAux needle hay = some 0 := by
  cases hay <;> simp [wxFindAux, h]

theorem wxFindAux_le (needle : List Char) :
    ∀ (hay : List Char) (k : Nat), wxFindAux needle hay = some k → k ≤ hay.length := by
  intro hay
  induction hay with
  | nil =>
      intro k h
      by_cases hp : needle.isPrefixOf ([] : List Char)
      · simp [wxFindAux, hp] at h; omega
      · simp [wxFindAux, hp] at h
  | cons c t ih =>
      intro k h
      by_cases hp : needle.isPrefixOf (c :: t)
      · simp [wxFindAux, hp] at h; omega
      · simp only [wxFindAux, hp, Bool.false_eq_true, if_false] at h
        rcases ho : wxFindAux needle t with _ | k0
        · rw [ho] at h; simp at h
        · rw [ho] at h
          simp only [Option.map_some', Option.some.injEq] at h
          have := ih k0 ho
          simp only [List.length_cons]
          omega

theorem wxFindAux_append (needle r : List Char) :
    ∀ l : List Char,
      ∃ k, wxFindAux needle (l ++ (needle ++ r)) = some k ∧ k ≤ l.length := by
  intro l
  induction l with
  | nil =>
      refine ⟨0, ?_, Nat.le_refl 0⟩
      apply wxFindAux_of_isPrefixOf
      rw [List.isPrefixOf_iff_prefix]
      exact List.prefix_append needle r
  | cons c t ih =>
      by_cases hp : needle.isPrefixOf (c :: (t ++ (needle ++ r)))
      · exact ⟨0, by simp [wxFindAux, hp], Nat.zero_le _⟩
      · rcases ih with ⟨k, hk, hle⟩
        refine ⟨k + 1, ?_, by simp [List.length_cons]; omega⟩
        show wxFindAux needle (c :: (t ++ (needle ++ r))) = some (k + 1)
        simp only [wxFindAux, hp, Bool.false_eq_true, if_false, hk, Option.map_some']

theorem substr_Find_eq (pat cand : List Char) :
    EDA_PATTERN_MATCH_SUBSTR.Find ⟨pat⟩ cand
      = (match wxFindAux pat cand with
        | some k => (k : Int)
        | none => EDA_PATTERN_NOT_FOUND) := by
  unfold EDA_PATTERN_MATCH_SUBSTR.Find wxStringFind
  rcases h : wxFindAux pat cand with _ | k
  · simp
  · simp only []
    rw [if_neg]
    simp only [wxNOT_FOUND]
    omega

/-- The matcher list built by the `EDA_COMBINED_MATCHER` constructor:
whichever of regex and wildcard compiled, in that order, then always the
substring matcher. -/
theorem construct_matchers (compile : RegexCompiler) (p : List Char) :
    (EDA_COMBINED_MATCHER.construct compile p).m_matchers
      = (if (compile p).isSome then
          [EDA_PATTERN_MATCH.regex { m_pattern := p, m_regex := compile p }]
        else [])
        ++ (if (compile (wildcardRegexLoop [] p)).isSome then
          [EDA_PATTERN_MATCH.wildcard
            { m_pattern := wildcardRegexLoop [] p
            , m_regex := compile (wildcardRegexLoop [] p)
            , m_wildcard_pattern := p }]
        else [])
        ++ [EDA_PATTERN_MATCH.substr { m_pattern := p }] := by
  unfold EDA_COMBINED_MATCHER.construct EDA_COMBINED_MATCHER.AddMatcher
  simp only [EDA_PATTERN_MATCH.SetPattern, EDA_PATTERN_MATCH_SUBSTR.SetPattern,
    EDA_PATTERN_MATCH_REGEX.SetPattern, EDA_PATTERN_MATCH_WILDCARD.SetPattern,
    freshRegexMatcher, freshWildcardMatcher, freshSubstrMatcher]
  rcases h1 : compile p with _ | f1 <;>
    rcases h2 : compile (wildcardRegexLoop [] p) with _ | f2 <;>
      simp [h1, h2]

theorem construct_pattern (compile : RegexCompiler) (p : List Char) :
    (EDA_COMBINED_MATCHER.construct compile p).m_pattern = p := by
  unfold EDA_COMBINED_MATCHER.construct EDA_COMBINED_MATCHER.AddMatcher
  rcases h1 : (freshRegexMatcher.SetPattern compile p).1 <;>
    rcases h2 : (freshWildcardMatcher.SetPattern compile p).1 <;>
      rcases h3 : (freshSubstrMatcher.SetPattern compile p).1 <;>
        simp [h1, h2, h3]

theorem lookup_cons_eq_if {β : Type} (a k : Int) (v : β) (es : List (Int × β)) :
    List.lookup a ((k, v) :: es) = if a = k then some v else List.lookup a es := by
  by_cases h : a = k
  · simp [List.lookup, h]
  · have hb : (a == k) = false := by simp [h]
    simp [List.lookup, hb, h]

theorem lookup_nil_none {β : Type} (a : Int) :
    List.lookup a ([] : List (Int × β)) = none := rfl

theorem ite_or_split {β : Type} {c d : Prop} [Decidable c] [Decidable d]
    {v e1 e2 : β} (he : e1 = e2) :
    (if c ∨ d then v else e1) = if c then v else if d then v else e2 := by
  by_cases hc : c
  · simp [hc]
  · by_cases hd : d
    · simp [hc, hd]
    · simp [hc, hd, he]

/-- The switch of `PCB_ACTIONS::TranslateLegacyId` is extensionally the
flat association-table lookup `legacyIdTable`. -/
theorem translate_eq_lookup (ids : LEGACY_IDS) (aId : Int) :
    PCB_ACTIONS.TranslateLegacyId ids aId = (legacyIdTable ids).lookup aId := by
  unfold PCB_ACTIONS.TranslateLegacyId legacyIdTable
  simp only [lookup_cons_eq_if, lookup_nil_none]
  refine if_congr Iff.rfl rfl ?_
  refine if_congr Iff.rfl rfl ?_
  refine if_congr Iff.rfl rfl ?_
  refine if_congr Iff.rfl rfl ?_
  refine if_congr Iff.rfl rfl ?_
  refine if_congr Iff.rfl rfl ?_
  refine if_congr Iff.rfl rfl ?_
  refine if_congr Iff.rfl rfl ?_
  refine if_congr Iff.rfl rfl ?_
  refine if_congr Iff.rfl rfl ?_
  refine ite_or_split ?_
  refine ite_or_split ?_
  refine ite_or_split ?_
  refine ite_or_split ?_
  refine if_congr Iff.rfl rfl ?_
  refine if_congr Iff.rfl rfl ?_
  refine if_congr Iff.rfl rfl ?_
  refine if_congr Iff.rfl rfl ?_
  refine if_congr Iff.rfl rfl ?_
  refine ite_or_split ?_
  refine if_congr Iff.rfl rfl ?_
  refine if_congr Iff.rfl rfl ?_
  refine if_congr Iff.rfl rfl ?_
  refine if_congr Iff.rfl rfl ?_
  refine if_congr Iff.rfl rfl ?_
  refine if_congr Iff.rfl rfl ?_
  refine if_congr Iff.rfl rfl ?_
  refine if_congr Iff.rfl rfl ?_
  refine if_congr Iff.rfl rfl ?_
  refine if_congr Iff.rfl rfl ?_
  refine if_congr Iff.rfl rfl ?_
  refine if_congr Iff.rfl rfl ?_
  refine if_congr Iff.rfl rfl ?_
  refine if_congr Iff.rfl rfl ?_
  refine if_congr Iff.rfl rfl ?_
  refine if_congr Iff.rfl rfl ?_
  refine ite_or_split ?_
  refine if_congr Iff.rfl rfl ?_
  refine if_congr Iff.rfl rfl ?_
  refine if_congr Iff.rfl rfl ?_
  refine if_congr Iff.rfl rfl ?_
  rfl

theorem foldl_min_le_init (xs : List Int) (x : Int) : xs.foldl min x ≤ x := by
  induction xs generalizing x with
  | nil => simp
  | cons y ys ih => exact le_trans (ih (min x y)) (min_le_left x y)

theorem foldl_min_le_mem (xs : List Int) (x v : Int) (hv : v ∈ xs) :
    xs.foldl min x ≤ v := by
  induction xs generalizing x with
  | nil => simp at hv
  | cons y ys ih =>
      rcases List.mem_cons.mp hv with rfl | h
      · exact le_trans (foldl_min_le_init ys (min x v)) (min_le_right x v)
      · exact ih (min x y) h

/-- `combinedPosSpec` is a lower bound of every reported position. -/
theorem combinedPosSpec_le (vals : List Int) (v : Int) (hv : v ∈ vals)
    (hne : v ≠ EDA_PATTERN_NOT_FOUND) : combinedPosSpec vals ≤ v := by
  have hvf : v ∈ vals.filter (fun w => w != EDA_PATTERN_NOT_FOUND) :=
    List.mem_filter.mpr ⟨hv, by simpa using hne⟩
  unfold combinedPosSpec
  rcases hf : vals.filter (fun w => w != EDA_PATTERN_NOT_FOUND) with _ | ⟨x, xs⟩
  · rw [hf] at hvf; simp at hvf
  · rw [hf] at hvf
    rcases List.mem_cons.mp hvf with rfl | h
    · exact foldl_min_le_init xs v
    · exact foldl_min_le_mem xs x v h

/-- `combinedPosSpec` is the sentinel or one of the reported positions. -/
theorem combinedPosSpec_mem (vals : List Int) :
    combinedPosSpec vals = EDA_PATTERN_NOT_FOUND ∨ combinedPosSpec vals ∈ vals := by
  unfold combinedPosSpec
  rcases hf : vals.filter (fun w => w != EDA_PATTERN_NOT_FOUND) with _ | ⟨x, xs⟩
  · left; rfl
  · right
    have hmem : xs.foldl min x ∈ x :: xs := by
      rcases foldl_min_mem xs x with h | h
      · rw [h]; simp
      · simp [h]
    have : xs.foldl min x ∈ vals.filter (fun w => w != EDA_PATTERN_NOT_FOUND) := by
      rw [hf]; exact hmem
    exact (List.mem_filter.mp this).1

theorem length_filter_map_eq {α : Type} (l : List α) (f : α → Int) (p : Int → Bool) :
    ((l.map f).filter p).length = (l.filter (fun x => p (f x))).length := by
  induction l with
  | nil => rfl
  | cons x xs ih =>
      by_cases h : p (f x) <;> simp [List.filter_cons, h, ih]

theorem lookup_eq_none_of_not_mem {β : Type} (a : Int) (l : List (Int × β))
    (h : a ∉ l.map Prod.fst) : List.lookup a l = none := by
  induction l with
  | nil => rfl
  | cons e es ih =>
      rcases e with ⟨k, v⟩
      simp only [List.map_cons, List.mem_cons, not_or] at h
      rw [lookup_cons_eq_if, if_neg h.1]
      exact ih h.2

/-- With no valid compiled regex, the regex matcher's `Find` coincides with
the substring matcher's `Find` on the stored pattern. -/
theorem regexFind_invalid_eq (m : EDA_PATTERN_MATCH_REGEX) (cand : List Char)
    (h : m.m_regex = none) :
    m.Find cand = EDA_PATTERN_MATCH_SUBSTR.Find { m_pattern := m.m_pattern } cand := by
  unfold EDA_PATTERN_MATCH_REGEX.Find EDA_PATTERN_MATCH_SUBSTR.Find
  rw [h]

theorem substr_Find_bounds (s : EDA_PATTERN_MATCH_SUBSTR) (cand : List Char)
    (hlen : (cand.length : Int) ≤ INT_MAX) :
    0 ≤ s.Find cand ∧ s.Find cand ≤ INT_MAX := by
  rw [show s.Find cand = EDA_PATTERN_MATCH_SUBSTR.Find ⟨s.m_pattern⟩ cand from rfl,
    substr_Find_eq]
  rcases h : wxFindAux s.m_pattern cand with _ | k
  · exact ⟨by norm_num [EDA_PATTERN_NOT_FOUND, INT_MAX],
      by norm_num [EDA_PATTERN_NOT_FOUND, INT_MAX]⟩
  · have hk := wxFindAux_le s.m_pattern cand k h
    have hk2 : (k : Int) ≤ (cand.length : Int) := by exact_mod_cast hk
    exact ⟨Int.natCast_nonneg k, le_trans hk2 hlen⟩

theorem regex_Find_bounds (s : EDA_PATTERN_MATCH_REGEX) (cand : List Char)
    (hlen : (cand.length : Int) ≤ INT_MAX) :
    0 ≤ s.Find cand ∧ s.Find cand ≤ INT_MAX := by
  rcases hr : s.m_regex with _ | f
  · rw [regexFind_invalid_eq s cand hr]
    exact substr_Find_bounds ⟨s.m_pattern⟩ cand hlen
  · unfold EDA_PATTERN_MATCH_REGEX.Find
    rw [hr]
    rcases hf : f cand with _ | st
    · simp only [hf]
      exact ⟨by norm_num [EDA_PATTERN_NOT_FOUND, INT_MAX],
        by norm_num [EDA_PATTERN_NOT_FOUND, INT_MAX]⟩
    · simp only [hf]
      by_cases hgt : (st : Int) > INT_MAX
      · rw [if_pos hgt]
        exact ⟨by norm_num [INT_MAX], le_refl _⟩
      · rw [if_neg hgt]
        exact ⟨Int.natCast_nonneg st, not_lt.mp hgt⟩

/-- Every matcher variant's `Find` is non-negative and at most `INT_MAX`
(the candidate being representable as a `wxString`, its length fits in an
`int`). -/
theorem match_Find_bounds (m : EDA_PATTERN_MATCH) (cand : List Char)
    (hlen : (cand.length : Int) ≤ INT_MAX) :
    0 ≤ m.Find cand ∧ m.Find cand ≤ INT_MAX := by
  cases m with
  | substr s => exact substr_Find_bounds s cand hlen
  | regex s => exact regex_Find_bounds s cand hlen
  | wildcard s => exact regex_Find_bounds s.toEDA_PATTERN_MATCH_REGEX cand hlen

/-! ### Claim theorems -/

/-- C1: For every pattern and every candidate string,
`EDA_COMBINED_MATCHER::Find` sets the output position to the minimum of
the positions returned by the `Find` of whichever matchers were registered
at construction (those whose `SetPattern` returned true), the not-found
sentinel `EDA_PATTERN_NOT_FOUND` when none of them match, and returns true
exactly when some registered matcher matched. -/
theorem C1_combined_position_is_min (compile : RegexCompiler) (pat term : List Char) :
    ((EDA_COMBINED_MATCHER.construct compile pat).Find term).aPosition
        = combinedPosSpec
          ((EDA_COMBINED_MATCHER.construct compile pat).m_matchers.map
            (fun m => m.Find term))
      ∧ (((EDA_COMBINED_MATCHER.construct compile pat).Find term).aPosition
            = EDA_PATTERN_NOT_FOUND
          ∨ ((EDA_COMBINED_MATCHER.construct compile pat).Find term).aPosition
            ∈ (EDA_COMBINED_MATCHER.construct compile pat).m_matchers.map
              (fun m => m.Find term))
      ∧ (((EDA_COMBINED_MATCHER.construct compile pat).Find term).ret = true
          ↔ ∃ m ∈ (EDA_COMBINED_MATCHER.construct compile pat).m_matchers,
              m.Find term ≠ EDA_PATTERN_NOT_FOUND) := by
  refine ⟨(combined_Find_characterisation _ term).1, ?_,
    (combined_Find_characterisation _ term).2.2⟩
  rw [(combined_Find_characterisation _ term).1]
  exact combinedPosSpec_mem _

/-- C4: The constructor attempts to register exactly three matcher
variants, in the order regex, wildcard, substring, keeping those whose
`SetPattern` succeeded; and `Find` reports in `aMatchersTriggered` the
count of registered matchers whose individual `Find` did not return
`EDA_PATTERN_NOT_FOUND`. -/
theorem C4_constructor_order_and_trigger_count (compile : RegexCompiler)
    (pat term : List Char) :
    (EDA_COMBINED_MATCHER.construct compile pat).m_matchers
        = (if (compile pat).isSome then
            [EDA_PATTERN_MATCH.regex { m_pattern := pat, m_regex := compile pat }]
          else [])
          ++ (if (compile (wildcardRegexLoop [] pat)).isSome then
            [EDA_PATTERN_MATCH.wildcard
              { m_pattern := wildcardRegexLoop [] pat
              , m_regex := compile (wildcardRegexLoop [] pat)
              , m_wildcard_pattern := pat }]
          else [])
          ++ [EDA_PATTERN_MATCH.substr { m_pattern := pat }]
      ∧ ((EDA_COMBINED_MATCHER.construct compile pat).Find term).aMatchersTriggered
        = (((EDA_COMBINED_MATCHER.construct compile pat).m_matchers.filter
            (fun m => m.Find term != EDA_PATTERN_NOT_FOUND)).length : Int) := by
  refine ⟨construct_matchers compile pat, ?_⟩
  rw [(combined_Find_characterisation _ term).2.1, length_filter_map_eq]

/-- C3: `EDA_PATTERN_MATCH_WILDCARD::SetPattern` stores the original
wildcard string, translates it character by character (`?` to `.`, `*` to
`.*`, characters of the escape set preceded by a backslash, all others
copied), stores the translation as the regex pattern, compiles it, and
returns the success of that compilation. -/
theorem C3_wildcard_set_pattern (compile : RegexCompiler)
    (m : EDA_PATTERN_MATCH_WILDCARD) (p : List Char) :
    (m.SetPattern compile p).2.m_pattern = wildcardTranslation p
      ∧ (m.SetPattern compile p).2.m_regex = compile (wildcardTranslation p)
      ∧ (m.SetPattern compile p).2.m_wildcard_pattern = p
      ∧ (m.SetPattern compile p).1 = (compile (wildcardTranslation p)).isSome := by
  have h : wildcardRegexLoop [] p = wildcardTranslation p := by
    simpa using wildcardRegexLoop_eq p []
  unfold EDA_PATTERN_MATCH_WILDCARD.SetPattern EDA_PATTERN_MATCH_REGEX.SetPattern
  simp [h]

/-- C6: After `SetPattern p`, every matcher variant's `GetPattern` returns
exactly `p`; in particular the wildcard variant returns the original
wildcard string, not its regex translation. -/
theorem C6_get_pattern_returns_original (compile : RegexCompiler)
    (s1 : EDA_PATTERN_MATCH_SUBSTR) (s2 : EDA_PATTERN_MATCH_REGEX)
    (s3 : EDA_PATTERN_MATCH_WILDCARD) (p : List Char) :
    (s1.SetPattern p).2.GetPattern = p
      ∧ (EDA_PATTERN_MATCH_REGEX.SetPattern compile s2 p).2.GetPattern = p
      ∧ (s3.SetPattern compile p).2.GetPattern = p :=
  ⟨rfl, rfl, rfl⟩

/-- C7: `EDA_COMBINED_MATCHER::Find` is deterministic: two runs on the
same matcher state and candidate produce the same return value, position
and triggered count. -/
theorem C7_find_deterministic (c : EDA_COMBINED_MATCHER) (t : List Char) :
    c.Find t = c.Find t
      ∧ (c.Find t).ret = (c.Find t).ret
      ∧ (c.Find t).aPosition = (c.Find t).aPosition
      ∧ (c.Find t).aMatchersTriggered = (c.Find t).aMatchersTriggered :=
  ⟨rfl, rfl, rfl, rfl⟩

/-- C2: A matcher whose `SetPattern` returned false is not added by
`AddMatcher` (and nothing else happens); `EDA_PATTERN_MATCH_SUBSTR`'s
`SetPattern` returns true on every pattern, so the substring matcher is
always registered by the constructor. -/
theorem C2_failed_set_pattern_not_registered (compile : RegexCompiler)
    (p q : List Char) (c : EDA_COMBINED_MATCHER) (m : EDA_PATTERN_MATCH)
    (s : EDA_PATTERN_MATCH_SUBSTR)
    (h : (m.SetPattern compile p).1 = false) :
    (c.AddMatcher compile p m).m_matchers = c.m_matchers
      ∧ (s.SetPattern q).1 = true
      ∧ EDA_PATTERN_MATCH.substr { m_pattern := q }
          ∈ (EDA_COMBINED_MATCHER.construct compile q).m_matchers := by
  refine ⟨?_, rfl, ?_⟩
  · simp [EDA_COMBINED_MATCHER.AddMatcher, h]
  · rw [construct_matchers]
    simp

theorem C2_witness :
    ((freshRegexMatcher.SetPattern compileNone ['a']).1 = false)
      ∧ (((EDA_COMBINED_MATCHER.mk ['x'] []).AddMatcher compileNone ['a']
            freshRegexMatcher).m_matchers
            = (EDA_COMBINED_MATCHER.mk ['x'] []).m_matchers
        ∧ ((⟨['y']⟩ : EDA_PATTERN_MATCH_SUBSTR).SetPattern ['b']).1 = true
        ∧ EDA_PATTERN_MATCH.substr { m_pattern := ['b'] }
            ∈ (EDA_COMBINED_MATCHER.construct compileNone ['b']).m_matchers) :=
  ⟨rfl, C2_failed_set_pattern_not_registered compileNone ['a'] ['b']
    (EDA_COMBINED_MATCHER.mk ['x'] []) freshRegexMatcher ⟨['y']⟩ rfl⟩

/-- C8: If the compiled regex of a regex matcher is not valid, its `Find`
does not fail but performs a literal substring search for the stored
pattern; the wildcard matcher's `Find` is exactly the inherited regex
`Find`. -/
theorem C8_invalid_regex_falls_back (m : EDA_PATTERN_MATCH_REGEX)
    (w : EDA_PATTERN_MATCH_WILDCARD) (cand : List Char)
    (h : m.m_regex = none) :
    m.Find cand = EDA_PATTERN_MATCH_SUBSTR.Find { m_pattern := m.m_pattern } cand
      ∧ w.Find cand = EDA_PATTERN_MATCH_REGEX.Find w.toEDA_PATTERN_MATCH_REGEX cand :=
  ⟨regexFind_invalid_eq m cand h, rfl⟩

theorem C8_witness :
    (({ m_pattern := ['a'], m_regex := none } : EDA_PATTERN_MATCH_REGEX).m_regex = none)
      ∧ (({ m_pattern := ['a'], m_regex := none } : EDA_PATTERN_MATCH_REGEX).Find
            ['b', 'a']
            = EDA_PATTERN_MATCH_SUBSTR.Find { m_pattern := ['a'] } ['b', 'a']
        ∧ (⟨⟨['a'], none⟩, ['a']⟩ : EDA_PATTERN_MATCH_WILDCARD).Find ['b', 'a']
            = EDA_PATTERN_MATCH_REGEX.Find
              (⟨⟨['a'], none⟩, ['a']⟩ :
                EDA_PATTERN_MATCH_WILDCARD).toEDA_PATTERN_MATCH_REGEX ['b', 'a']) :=
  ⟨rfl, C8_invalid_regex_falls_back _ _ _ rfl⟩

/-- C9: After construction the matcher list is never empty (it always
contains the substring matcher), `AddMatcher` preserves non-emptiness,
and on every candidate that literally contains the pattern (with the
occurrence at an `int`-representable offset) `Find` returns true. -/
theorem C9_substr_always_registered (compile : RegexCompiler)
    (pat l r p2 : List Char) (c2 : EDA_COMBINED_MATCHER) (m2 : EDA_PATTERN_MATCH)
    (hlen : (l.length : Int) < INT_MAX)
    (hne : c2.m_matchers ≠ []) :
    (EDA_COMBINED_MATCHER.construct compile pat).m_matchers ≠ []
      ∧ EDA_PATTERN_MATCH.substr { m_pattern := pat }
          ∈ (EDA_COMBINED_MATCHER.construct compile pat).m_matchers
      ∧ (c2.AddMatcher compile p2 m2).m_matchers ≠ []
      ∧ ((EDA_COMBINED_MATCHER.construct compile pat).Find (l ++ (pat ++ r))).ret
          = true := by
  have hmem : EDA_PATTERN_MATCH.substr { m_pattern := pat }
      ∈ (EDA_COMBINED_MATCHER.construct compile pat).m_matchers := by
    rw [construct_matchers]; simp
  refine ⟨?_, hmem, ?_, ?_⟩
  · rw [construct_matchers]; simp
  · by_cases hr : (m2.SetPattern compile p2).1 <;>
      simp [EDA_COMBINED_MATCHER.AddMatcher, hr, hne]
  · rw [(combined_Find_characterisation _ _).2.2]
    refine ⟨EDA_PATTERN_MATCH.substr ⟨pat⟩, hmem, ?_⟩
    obtain ⟨k, hk, hkle⟩ := wxFindAux_append pat r l
    have hfind : EDA_PATTERN_MATCH.Find (.substr ⟨pat⟩) (l ++ (pat ++ r)) = (k : Int) := by
      show EDA_PATTERN_MATCH_SUBSTR.Find ⟨pat⟩ (l ++ (pat ++ r)) = (k : Int)
      rw [substr_Find_eq, hk]
    rw [hfind]
    have hk2 : (k : Int) ≤ (l.length : Int) := by exact_mod_cast hkle
    have hEq : EDA_PATTERN_NOT_FOUND = INT_MAX := rfl
    omega

theorem C9_witness :
    (((['b'] : List Char).length : Int) < INT_MAX)
      ∧ ((EDA_COMBINED_MATCHER.mk ['c'] [freshSubstrMatcher]).m_matchers ≠ [])
      ∧ ((EDA_COMBINED_MATCHER.construct compileNone ['a']).m_matchers ≠ []
        ∧ EDA_PATTERN_MATCH.substr { m_pattern := ['a'] }
            ∈ (EDA_COMBINED_MATCHER.construct compileNone ['a']).m_matchers
        ∧ (((EDA_COMBINED_MATCHER.mk ['c'] [freshSubstrMatcher]).AddMatcher compileNone
              ['c'] freshRegexMatcher).m_matchers ≠ [])
        ∧ ((EDA_COMBINED_MATCHER.construct compileNone ['a']).Find
            (['b'] ++ (['a'] ++ []))).ret = true) :=
  ⟨by decide, by simp, C9_substr_always_registered compileNone ['a'] ['b'] [] ['c']
    (EDA_COMBINED_MATCHER.mk ['c'] [freshSubstrMatcher]) freshRegexMatcher (by decide)
    (by simp)⟩

/-- C10: When the compiled regex matches, `EDA_PATTERN_MATCH_REGEX::Find`
returns the match start clamped to `INT_MAX`; and every matcher's `Find`
value is non-negative and at most `INT_MAX` (hence either the sentinel,
which is `INT_MAX`, or a position in `[0, INT_MAX]`). -/
theorem C10_regex_clamp_and_bounds (m : EDA_PATTERN_MATCH)
    (mr : EDA_PATTERN_MATCH_REGEX) (f : CompiledRegex) (st : Nat)
    (cand : List Char)
    (hlen : (cand.length : Int) ≤ INT_MAX)
    (hmr : mr.m_regex = some f) (hf : f cand = some st) :
    mr.Find cand = min (st : Int) INT_MAX
      ∧ 0 ≤ m.Find cand ∧ m.Find cand ≤ INT_MAX := by
  refine ⟨?_, match_Find_bounds m cand hlen⟩
  unfold EDA_PATTERN_MATCH_REGEX.Find
  rw [hmr]
  simp only [hf]
  rcases le_or_lt (st : Int) INT_MAX with h | h
  · rw [if_neg (not_lt.mpr h), min_eq_left h]
  · rw [if_pos h, min_eq_right (le_of_lt h)]

theorem C10_witness :
    (((['a'] : List Char).length : Int) ≤ INT_MAX)
      ∧ (({ m_pattern := ['a'], m_regex := some (fun _ => some 0) } :
            EDA_PATTERN_MATCH_REGEX).m_regex = some (fun _ => some 0))
      ∧ ((fun _ => some 0 : CompiledRegex) ['a'] = some 0)
      ∧ (({ m_pattern := ['a'], m_regex := some (fun _ => some 0) } :
            EDA_PATTERN_MATCH_REGEX).Find ['a'] = min ((0 : Nat) : Int) INT_MAX
        ∧ 0 ≤ freshSubstrMatcher.Find ['a']
        ∧ freshSubstrMatcher.Find ['a'] ≤ INT_MAX) :=
  ⟨by decide, rfl, rfl,
   C10_regex_clamp_and_bounds freshSubstrMatcher
     { m_pattern := ['a'], m_regex := some (fun _ => some 0) }
     (fun _ => some 0) 0 ['a'] (by decide) rfl rfl⟩

/-- In an association list with pairwise-distinct keys, `lookup` of a key
present in the list yields its associated value. -/
theorem lookup_of_mem_nodup {β : Type} (l : List (Int × β))
    (hnd : (l.map Prod.fst).Nodup) (k : Int) (v : β) (hm : (k, v) ∈ l) :
    l.lookup k = some v := by
  induction l with
  | nil => simp at hm
  | cons e es ih =>
      rcases e with ⟨k0, v0⟩
      rw [lookup_cons_eq_if]
      have hnd1 : (k0 :: es.map Prod.fst).Nodup := by
        simpa only [List.map_cons] using hnd
      have hnd2 := List.nodup_cons.mp hnd1
      rcases List.mem_cons.mp hm with heq | hm2
      · rw [Prod.mk.injEq] at heq
        rw [if_pos heq.1, heq.2]
      · have hk : k ≠ k0 := by
          intro hkk
          subst hkk
          exact hnd2.1 (List.mem_map.mpr ⟨(k, v), hm2, rfl⟩)
        rw [if_neg hk]
        exact ih hnd2.2 hm2

/-- C5: `PCB_ACTIONS::TranslateLegacyId` is a flat lookup: a pure function
of the ID, extensionally equal to an association-table lookup on every
integer; every unlisted integer yields the empty optional; and, the case
labels being pairwise distinct as C requires, every listed ID yields the
event of its fixed `TOOL_ACTION`. -/
theorem C5_translate_legacy_id_flat_lookup (ids : LEGACY_IDS) (aId bId : Int)
    (hnodup : ((legacyIdTable ids).map Prod.fst).Nodup)
    (ha : aId ∉ (legacyIdTable ids).map Prod.fst) :
    PCB_ACTIONS.TranslateLegacyId ids bId = (legacyIdTable ids).lookup bId
      ∧ PCB_ACTIONS.TranslateLegacyId ids aId = none
      ∧ PCB_ACTIONS.TranslateLegacyId ids ids.ID_PCB_MODULE_BUTT
          = some PCB_ACTIONS.placeModule.MakeEvent
      ∧ PCB_ACTIONS.TranslateLegacyId ids ids.ID_TRACK_BUTT
          = some PCB_ACTIONS.routerActivateSingle.MakeEvent
      ∧ PCB_ACTIONS.TranslateLegacyId ids ids.ID_DIFF_PAIR_BUTT
          = some PCB_ACTIONS.routerActivateDiffPair.MakeEvent
      ∧ PCB_ACTIONS.TranslateLegacyId ids ids.ID_TUNE_SINGLE_TRACK_LEN_BUTT
          = some PCB_ACTIONS.routerActivateTuneSingleTrace.MakeEvent
      ∧ PCB_ACTIONS.TranslateLegacyId ids ids.ID_TUNE_DIFF_PAIR_LEN_BUTT
          = some PCB_ACTIONS.routerActivateTuneDiffPair.MakeEvent
      ∧ PCB_ACTIONS.TranslateLegacyId ids ids.ID_TUNE_DIFF_PAIR_SKEW_BUTT
          = some PCB_ACTIONS.routerActivateTuneDiffPairSkew.MakeEvent
      ∧ PCB_ACTIONS.TranslateLegacyId ids ids.ID_MENU_INTERACTIVE_ROUTER_SETTINGS
          = some PCB_ACTIONS.routerActivateSettingsDialog.MakeEvent
      ∧ PCB_ACTIONS.TranslateLegacyId ids ids.ID_MENU_DIFF_PAIR_DIMENSIONS
          = some PCB_ACTIONS.routerActivateDpDimensionsDialog.MakeEvent
      ∧ PCB_ACTIONS.TranslateLegacyId ids ids.ID_PCB_ZONES_BUTT
          = some PCB_ACTIONS.drawZone.MakeEvent
      ∧ PCB_ACTIONS.TranslateLegacyId ids ids.ID_PCB_KEEPOUT_AREA_BUTT
          = some PCB_ACTIONS.drawKeepout.MakeEvent
      ∧ PCB_ACTIONS.TranslateLegacyId ids ids.ID_PCB_ADD_LINE_BUTT
          = some PCB_ACTIONS.drawLine.MakeEvent
      ∧ PCB_ACTIONS.TranslateLegacyId ids ids.ID_MODEDIT_LINE_TOOL
          = some PCB_ACTIONS.drawLine.MakeEvent
      ∧ PCB_ACTIONS.TranslateLegacyId ids ids.ID_PCB_CIRCLE_BUTT
          = some PCB_ACTIONS.drawCircle.MakeEvent
      ∧ PCB_ACTIONS.TranslateLegacyId ids ids.ID_MODEDIT_CIRCLE_TOOL
          = some PCB_ACTIONS.drawCircle.MakeEvent
      ∧ PCB_ACTIONS.TranslateLegacyId ids ids.ID_PCB_ARC_BUTT
          = some PCB_ACTIONS.drawArc.MakeEvent
      ∧ PCB_ACTIONS.TranslateLegacyId ids ids.ID_MODEDIT_ARC_TOOL
          = some PCB_ACTIONS.drawArc.MakeEvent
      ∧ PCB_ACTIONS.TranslateLegacyId ids ids.ID_PCB_ADD_TEXT_BUTT
          = some PCB_ACTIONS.placeText.MakeEvent
      ∧ PCB_ACTIONS.TranslateLegacyId ids ids.ID_MODEDIT_TEXT_TOOL
          = some PCB_ACTIONS.placeText.MakeEvent
      ∧ PCB_ACTIONS.TranslateLegacyId ids ids.ID_PCB_DIMENSION_BUTT
          = some PCB_ACTIONS.drawDimension.MakeEvent
      ∧ PCB_ACTIONS.TranslateLegacyId ids ids.ID_PCB_MIRE_BUTT
          = some PCB_ACTIONS.placeTarget.MakeEvent
      ∧ PCB_ACTIONS.TranslateLegacyId ids ids.ID_MODEDIT_PAD_TOOL
          = some PCB_ACTIONS.placePad.MakeEvent
      ∧ PCB_ACTIONS.TranslateLegacyId ids ids.ID_GEN_IMPORT_DXF_FILE
          = some PCB_ACTIONS.placeDXF.MakeEvent
      ∧ PCB_ACTIONS.TranslateLegacyId ids ids.ID_MODEDIT_ANCHOR_TOOL
          = some PCB_ACTIONS.setAnchor.MakeEvent
      ∧ PCB_ACTIONS.TranslateLegacyId ids ids.ID_PCB_PLACE_GRID_COORD_BUTT
          = some PCB_ACTIONS.gridSetOrigin.MakeEvent
      ∧ PCB_ACTIONS.TranslateLegacyId ids ids.ID_MODEDIT_PLACE_GRID_COORD
          = some PCB_ACTIONS.gridSetOrigin.MakeEvent
      ∧ PCB_ACTIONS.TranslateLegacyId ids ids.ID_ZOOM_IN
          = some PCB_ACTIONS.zoomInCenter.MakeEvent
      ∧ PCB_ACTIONS.TranslateLegacyId ids ids.ID_ZOOM_OUT
          = some PCB_ACTIONS.zoomOutCenter.MakeEvent
      ∧ PCB_ACTIONS.TranslateLegacyId ids ids.ID_ZOOM_PAGE
          = some PCB_ACTIONS.zoomFitScreen.MakeEvent
      ∧ PCB_ACTIONS.TranslateLegacyId ids ids.ID_TB_OPTIONS_SHOW_TRACKS_SKETCH
          = some PCB_ACTIONS.trackDisplayMode.MakeEvent
      ∧ PCB_ACTIONS.TranslateLegacyId ids ids.ID_TB_OPTIONS_SHOW_PADS_SKETCH
          = some PCB_ACTIONS.padDisplayMode.MakeEvent
      ∧ PCB_ACTIONS.TranslateLegacyId ids ids.ID_TB_OPTIONS_SHOW_VIAS_SKETCH
          = some PCB_ACTIONS.viaDisplayMode.MakeEvent
      ∧ PCB_ACTIONS.TranslateLegacyId ids ids.ID_TB_OPTIONS_SHOW_ZONES
          = some PCB_ACTIONS.zoneDisplayEnable.MakeEvent
      ∧ PCB_ACTIONS.TranslateLegacyId ids ids.ID_TB_OPTIONS_SHOW_ZONES_DISABLE
          = some PCB_ACTIONS.zoneDisplayDisable.MakeEvent
      ∧ PCB_ACTIONS.TranslateLegacyId ids ids.ID_TB_OPTIONS_SHOW_ZONES_OUTLINES_ONLY
          = some PCB_ACTIONS.zoneDisplayOutlines.MakeEvent
      ∧ PCB_ACTIONS.TranslateLegacyId ids ids.ID_TB_OPTIONS_SHOW_MODULE_EDGE_SKETCH
          = some PCB_ACTIONS.moduleEdgeOutlines.MakeEvent
      ∧ PCB_ACTIONS.TranslateLegacyId ids ids.ID_TB_OPTIONS_SHOW_MODULE_TEXT_SKETCH
          = some PCB_ACTIONS.moduleTextOutlines.MakeEvent
      ∧ PCB_ACTIONS.TranslateLegacyId ids ids.ID_TB_OPTIONS_SHOW_HIGH_CONTRAST_MODE
          = some PCB_ACTIONS.highContrastMode.MakeEvent
      ∧ PCB_ACTIONS.TranslateLegacyId ids ids.ID_FIND_ITEMS
          = some PCB_ACTIONS.find.MakeEvent
      ∧ PCB_ACTIONS.TranslateLegacyId ids ids.ID_POPUP_PCB_GET_AND_MOVE_MODULE_REQUEST
          = some PCB_ACTIONS.findMove.MakeEvent
      ∧ PCB_ACTIONS.TranslateLegacyId ids ids.ID_NO_TOOL_SELECTED
          = some PCB_ACTIONS.selectionTool.MakeEvent
      ∧ PCB_ACTIONS.TranslateLegacyId ids ids.ID_ZOOM_SELECTION
          = some PCB_ACTIONS.zoomTool.MakeEvent
      ∧ PCB_ACTIONS.TranslateLegacyId ids ids.ID_PCB_DELETE_ITEM_BUTT
          = some PCB_ACTIONS.deleteItemCursor.MakeEvent
      ∧ PCB_ACTIONS.TranslateLegacyId ids ids.ID_MODEDIT_DELETE_TOOL
          = some PCB_ACTIONS.deleteItemCursor.MakeEvent
      ∧ PCB_ACTIONS.TranslateLegacyId ids ids.ID_PCB_PLACE_OFFSET_COORD_BUTT
          = some PCB_ACTIONS.drillOrigin.MakeEvent
      ∧ PCB_ACTIONS.TranslateLegacyId ids ids.ID_PCB_HIGHLIGHT_BUTT
          = some PCB_ACTIONS.highlightNetCursor.MakeEvent
      ∧ PCB_ACTIONS.TranslateLegacyId ids ids.ID_APPEND_FILE
          = some PCB_ACTIONS.appendBoard.MakeEvent
      ∧ PCB_ACTIONS.TranslateLegacyId ids ids.ID_PCB_SHOW_1_RATSNEST_BUTT
          = some PCB_ACTIONS.toBeDone.MakeEvent := by
  refine ⟨translate_eq_lookup ids bId, ?_, ?_, ?_, ?_, ?_, ?_, ?_, ?_, ?_, ?_, ?_, ?_, ?_, ?_, ?_, ?_, ?_, ?_, ?_, ?_, ?_, ?_, ?_, ?_, ?_, ?_, ?_, ?_, ?_, ?_, ?_, ?_, ?_, ?_, ?_, ?_, ?_, ?_, ?_, ?_, ?_, ?_, ?_, ?_, ?_, ?_, ?_, ?_⟩
  · rw [translate_eq_lookup ids aId]
    exact lookup_eq_none_of_not_mem aId _ ha
  all_goals rw [translate_eq_lookup]
  all_goals exact lookup_of_mem_nodup _ hnodup _ _ (by simp [legacyIdTable])

theorem C5_witness :
    ((legacyIdTable sampleIds).map Prod.fst).Nodup
      ∧ (999 : Int) ∉ (legacyIdTable sampleIds).map Prod.fst
      ∧ (PCB_ACTIONS.TranslateLegacyId sampleIds 500
            = (legacyIdTable sampleIds).lookup 500
        ∧ PCB_ACTIONS.TranslateLegacyId sampleIds 999 = none
        ∧ PCB_ACTIONS.TranslateLegacyId sampleIds sampleIds.ID_PCB_MODULE_BUTT
            = some PCB_ACTIONS.placeModule.MakeEvent
        ∧ PCB_ACTIONS.TranslateLegacyId sampleIds sampleIds.ID_TRACK_BUTT
            = some PCB_ACTIONS.routerActivateSingle.MakeEvent
        ∧ PCB_ACTIONS.TranslateLegacyId sampleIds sampleIds.ID_DIFF_PAIR_BUTT
            = some PCB_ACTIONS.routerActivateDiffPair.MakeEvent
        ∧ PCB_ACTIONS.TranslateLegacyId sampleIds sampleIds.ID_TUNE_SINGLE_TRACK_LEN_BUTT
            = some PCB_ACTIONS.routerActivateTuneSingleTrace.MakeEvent
        ∧ PCB_ACTIONS.TranslateLegacyId sampleIds sampleIds.ID_TUNE_DIFF_PAIR_LEN_BUTT
            = some PCB_ACTIONS.routerActivateTuneDiffPair.MakeEvent
        ∧ PCB_ACTIONS.TranslateLegacyId sampleIds sampleIds.ID_TUNE_DIFF_PAIR_SKEW_BUTT
            = some PCB_ACTIONS.routerActivateTuneDiffPairSkew.MakeEvent
        ∧ PCB_ACTIONS.TranslateLegacyId sampleIds sampleIds.ID_MENU_INTERACTIVE_ROUTER_SETTINGS
            = some PCB_ACTIONS.routerActivateSettingsDialog.MakeEvent
        ∧ PCB_ACTIONS.TranslateLegacyId sampleIds sampleIds.ID_MENU_DIFF_PAIR_DIMENSIONS
            = some PCB_ACTIONS.routerActivateDpDimensionsDialog.MakeEvent
        ∧ PCB_ACTIONS.TranslateLegacyId sampleIds sampleIds.ID_PCB_ZONES_BUTT
            = some PCB_ACTIONS.drawZone.MakeEvent
        ∧ PCB_ACTIONS.TranslateLegacyId sampleIds sampleIds.ID_PCB_KEEPOUT_AREA_BUTT
            = some PCB_ACTIONS.drawKeepout.MakeEvent
        ∧ PCB_ACTIONS.TranslateLegacyId sampleIds sampleIds.ID_PCB_ADD_LINE_BUTT
            = some PCB_ACTIONS.drawLine.MakeEvent
        ∧ PCB_ACTIONS.TranslateLegacyId sampleIds sampleIds.ID_MODEDIT_LINE_TOOL
            = some PCB_ACTIONS.drawLine.MakeEvent
        ∧ PCB_ACTIONS.TranslateLegacyId sampleIds sampleIds.ID_PCB_CIRCLE_BUTT
            = some PCB_ACTIONS.drawCircle.MakeEvent
        ∧ PCB_ACTIONS.TranslateLegacyId sampleIds sampleIds.ID_MODEDIT_CIRCLE_TOOL
            = some PCB_ACTIONS.drawCircle.MakeEvent
        ∧ PCB_ACTIONS.TranslateLegacyId sampleIds sampleIds.ID_PCB_ARC_BUTT
            = some PCB_ACTIONS.drawArc.MakeEvent
        ∧ PCB_ACTIONS.TranslateLegacyId sampleIds sampleIds.ID_MODEDIT_ARC_TOOL
            = some PCB_ACTIONS.drawArc.MakeEvent
        ∧ PCB_ACTIONS.TranslateLegacyId sampleIds sampleIds.ID_PCB_ADD_TEXT_BUTT
            = some PCB_ACTIONS.placeText.MakeEvent
        ∧ PCB_ACTIONS.TranslateLegacyId sampleIds sampleIds.ID_MODEDIT_TEXT_TOOL
            = some PCB_ACTIONS.placeText.MakeEvent
        ∧ PCB_ACTIONS.TranslateLegacyId sampleIds sampleIds.ID_PCB_DIMENSION_BUTT
            = some PCB_ACTIONS.drawDimension.MakeEvent
        ∧ PCB_ACTIONS.TranslateLegacyId sampleIds sampleIds.ID_PCB_MIRE_BUTT
            = some PCB_ACTIONS.placeTarget.MakeEvent
        ∧ PCB_ACTIONS.TranslateLegacyId sampleIds sampleIds.ID_MODEDIT_PAD_TOOL
            = some PCB_ACTIONS.placePad.MakeEvent
        ∧ PCB_ACTIONS.TranslateLegacyId sampleIds sampleIds.ID_GEN_IMPORT_DXF_FILE
            = some PCB_ACTIONS.placeDXF.MakeEvent
        ∧ PCB_ACTIONS.TranslateLegacyId sampleIds sampleIds.ID_MODEDIT_ANCHOR_TOOL
            = some PCB_ACTIONS.setAnchor.MakeEvent
        ∧ PCB_ACTIONS.TranslateLegacyId sampleIds sampleIds.ID_PCB_PLACE_GRID_COORD_BUTT
            = some PCB_ACTIONS.gridSetOrigin.MakeEvent
        ∧ PCB_ACTIONS.TranslateLegacyId sampleIds sampleIds.ID_MODEDIT_PLACE_GRID_COORD
            = some PCB_ACTIONS.gridSetOrigin.MakeEvent
        ∧ PCB_ACTIONS.TranslateLegacyId sampleIds sampleIds.ID_ZOOM_IN
            = some PCB_ACTIONS.zoomInCenter.MakeEvent
        ∧ PCB_ACTIONS.TranslateLegacyId sampleIds sampleIds.ID_ZOOM_OUT
            = some PCB_ACTIONS.zoomOutCenter.MakeEvent
        ∧ PCB_ACTIONS.TranslateLegacyId sampleIds sampleIds.ID_ZOOM_PAGE
            = some PCB_ACTIONS.zoomFitScreen.MakeEvent
        ∧ PCB_ACTIONS.TranslateLegacyId sampleIds sampleIds.ID_TB_OPTIONS_SHOW_TRACKS_SKETCH
            = some PCB_ACTIONS.trackDisplayMode.MakeEvent
        ∧ PCB_ACTIONS.TranslateLegacyId sampleIds sampleIds.ID_TB_OPTIONS_SHOW_PADS_SKETCH
            = some PCB_ACTIONS.padDisplayMode.MakeEvent
        ∧ PCB_ACTIONS.TranslateLegacyId sampleIds sampleIds.ID_TB_OPTIONS_SHOW_VIAS_SKETCH
            = some PCB_ACTIONS.viaDisplayMode.MakeEvent
        ∧ PCB_ACTIONS.TranslateLegacyId sampleIds sampleIds.ID_TB_OPTIONS_SHOW_ZONES
            = some PCB_ACTIONS.zoneDisplayEnable.MakeEvent
        ∧ PCB_ACTIONS.TranslateLegacyId sampleIds sampleIds.ID_TB_OPTIONS_SHOW_ZONES_DISABLE
            = some PCB_ACTIONS.zoneDisplayDisable.MakeEvent
        ∧ PCB_ACTIONS.TranslateLegacyId sampleIds sampleIds.ID_TB_OPTIONS_SHOW_ZONES_OUTLINES_ONLY
            = some PCB_ACTIONS.zoneDisplayOutlines.MakeEvent
        ∧ PCB_ACTIONS.TranslateLegacyId sampleIds sampleIds.ID_TB_OPTIONS_SHOW_MODULE_EDGE_SKETCH
            = some PCB_ACTIONS.moduleEdgeOutlines.MakeEvent
        ∧ PCB_ACTIONS.TranslateLegacyId sampleIds sampleIds.ID_TB_OPTIONS_SHOW_MODULE_TEXT_SKETCH
            = some PCB_ACTIONS.moduleTextOutlines.MakeEvent
        ∧ PCB_ACTIONS.TranslateLegacyId sampleIds sampleIds.ID_TB_OPTIONS_SHOW_HIGH_CONTRAST_MODE
            = some PCB_ACTIONS.highContrastMode.MakeEvent
        ∧ PCB_ACTIONS.TranslateLegacyId sampleIds sampleIds.ID_FIND_ITEMS
            = some PCB_ACTIONS.find.MakeEvent
        ∧ PCB_ACTIONS.TranslateLegacyId sampleIds sampleIds.ID_POPUP_PCB_GET_AND_MOVE_MODULE_REQUEST
            = some PCB_ACTIONS.findMove.MakeEvent
        ∧ PCB_ACTIONS.TranslateLegacyId sampleIds sampleIds.ID_NO_TOOL_SELECTED
            = some PCB_ACTIONS.selectionTool.MakeEvent
        ∧ PCB_ACTIONS.TranslateLegacyId sampleIds sampleIds.ID_ZOOM_SELECTION
            = some PCB_ACTIONS.zoomTool.MakeEvent
        ∧ PCB_ACTIONS.TranslateLegacyId sampleIds sampleIds.ID_PCB_DELETE_ITEM_BUTT
            = some PCB_ACTIONS.deleteItemCursor.MakeEvent
        ∧ PCB_ACTIONS.TranslateLegacyId sampleIds sampleIds.ID_MODEDIT_DELETE_TOOL
            = some PCB_ACTIONS.deleteItemCursor.MakeEvent
        ∧ PCB_ACTIONS.TranslateLegacyId sampleIds sampleIds.ID_PCB_PLACE_OFFSET_COORD_BUTT
            = some PCB_ACTIONS.drillOrigin.MakeEvent
        ∧ PCB_ACTIONS.TranslateLegacyId sampleIds sampleIds.ID_PCB_HIGHLIGHT_BUTT
            = some PCB_ACTIONS.highlightNetCursor.MakeEvent
        ∧ PCB_ACTIONS.TranslateLegacyId sampleIds sampleIds.ID_APPEND_FILE
            = some PCB_ACTIONS.appendBoard.MakeEvent
        ∧ PCB_ACTIONS.TranslateLegacyId sampleIds sampleIds.ID_PCB_SHOW_1_RATSNEST_BUTT
            = some PCB_ACTIONS.toBeDone.MakeEvent) :=
  ⟨by decide, by decide,
   C5_translate_legacy_id_flat_lookup sampleIds 999 500 (by decide) (by decide)⟩
